import Mathlib

/-!
Codetainer HTTP handlers

A shallow embedding of `http-handlers.go`.  Every handler is a function from
the request context and the external collaborators (container runtime,
storage, helper functions of other files) to the ordered list of effects it
performs: each collaborator call with its arguments and outcome, and each
write to the response (`jsonError`, `renderJson`).  A handler that returns
early simply stops producing effects.

Go strings are rendered as `String`; the Go standard library functions used
by the handlers (`strconv.ParseInt`, `strconv.Atoi`, `strings.Trim`,
`path.Base`) are rendered on the character list of the string.  Go `int` is
the 64-bit signed integer, rendered as `Int` with the range checks of the
parsing routines made explicit.
-/

namespace CodetainerApi

/-! ## Data model -/

/-- Go `error` values, represented by their message. -/
abbrev GoError := String

/-- Modelled from the spec: the declaration of `TTY` is not in the sources;
the handlers build it as `TTY{Height: height, Width: width}` from two `int`s. -/
structure TTY where
  Height : Int
  Width : Int
deriving DecidableEq, Repr

/-- Modelled from the spec: the declaration of `Codetainer` is not in the
sources; the spec gives `{id, name, imageId, status}` and the handlers read
`codetainer.Id` and `codetainer.ImageId`. -/
structure Codetainer where
  Id : String
  Name : String
  ImageId : String
  Status : String
deriving DecidableEq, Repr

/-- Modelled from the spec: the declaration of `ShortFile` is not in the
sources; the spec gives `{name, path, kind}`. -/
structure ShortFile where
  name : String
  path : String
  kind : String
deriving DecidableEq, Repr

/-- The client endpoint of a socket connection (`ctx.WS`), by identity. -/
abbrev WebSocket := Nat

/-- The value built by `&ContainerConnection{id: ..., web: ...}`. -/
structure ContainerConnection where
  id : String
  web : Option WebSocket
deriving DecidableEq, Repr

/-- The fields of `docker.CreateExecOptions` set by the handlers. -/
structure CreateExecOptions where
  AttachStderr : Bool
  AttachStdin : Bool
  AttachStdout : Bool
  Tty : Bool
  Cmd : List String
  Container : String
deriving DecidableEq, Repr

/-- The multipart file returned by `ctx.R.FormFile`: its bytes and the
client-supplied `hdr.Filename`. -/
structure FormFile where
  data : String
  Filename : String
deriving DecidableEq, Repr

/-- The parts of `*http.Request` read by the handlers.  `vars` is
`mux.Vars(ctx.R)` and `FormValue` is `ctx.R.FormValue`; both give `""` for a
missing key.  `URL` is `ctx.R.URL.String()` and `FormFile` is the outcome of
`ctx.R.FormFile("upload")`. -/
structure Request where
  Method : String
  URL : String
  vars : String → String
  FormValue : String → String
  FormFile : GoError ⊕ FormFile

/-- The handler context: request `R` and socket `WS` (`none` is `nil`). -/
structure Context where
  R : Request
  WS : Option WebSocket

/-- What `renderJson` is given. -/
inductive Payload where
  | tty (t : TTY)
  | codetainer (c : Codetainer)
  | files (fs : List ShortFile)
  | success
deriving DecidableEq, Repr

/-- One effect of a handler: a call to a collaborator, with its arguments and
its outcome (`none` as error is Go's `nil`), or a write to the response. -/
inductive Event where
  | GetDockerClient (err : Option GoError)
  | GetDatabase (err : Option GoError)
  | ResizeContainerTTY (id : String) (height width : Int) (err : Option GoError)
  | execInContainer (id : String) (cmd : List String) (out errOut : String)
      (err : Option GoError)
  | CreateExec (opts : CreateExecOptions) (res : GoError ⊕ String)
  | StartExec (execId : String) (out errOut : String) (err : Option GoError)
  | makeShortFiles (bytes : String) (res : GoError ⊕ List ShortFile)
  | LookupByNameOrId (id : String) (res : GoError ⊕ Codetainer)
  | Stop (c : Codetainer) (err : Option GoError)
  | Start (c : Codetainer) (err : Option GoError)
  | UploadFile (c : Codetainer) (data filename dstPath : String) (err : Option GoError)
  | ConnectionStart (conn : ContainerConnection) (err : Option GoError)
  | jsonError (err : GoError)
  | renderJson (p : Payload)
deriving DecidableEq, Repr

/-- The outcome of one `execInContainer` call or of one `StartExec` call with
its two capture buffers: captured stdout, captured stderr, returned error. -/
structure ExecResult where
  out : String
  errOut : String
  err : Option GoError
deriving DecidableEq, Repr

/-- The external collaborators of the handlers, as the outcomes they give.
`Stop` and `Start` have pointer receivers on the record, so they also give
the record as they leave it. -/
structure Env where
  GetDockerClient : Option GoError
  GetDatabase : Option GoError
  ResizeContainerTTY : String → Int → Int → Option GoError
  execInContainer : String → List String → ExecResult
  CreateExec : CreateExecOptions → GoError ⊕ String
  StartExec : String → ExecResult
  makeShortFiles : String → GoError ⊕ List ShortFile
  LookupByNameOrId : String → GoError ⊕ Codetainer
  Stop : Codetainer → Option GoError × Codetainer
  Start : Codetainer → Option GoError × Codetainer
  UploadFile : Codetainer → String → String → String → Option GoError

/-! ## Go library functions used by the handlers -/

/-- The two kinds of `*strconv.NumError`. -/
inductive NumError where
  | syntaxErr
  | rangeErr
deriving DecidableEq, Repr

/-- Size of Go `int` in bits (`strconv.IntSize`) on a 64-bit platform. -/
def IntSize : Nat := 64

/-- Largest `uint64`. -/
def maxUint64 : Nat := 2 ^ 64 - 1

/-- Go `lower(c)`: `c | ('x' - 'X')` on a byte. -/
def lower (c : Nat) : Nat := c ||| 0x20

/-- The digit loop of `strconv.ParseUint`: `n` is the value so far.  Returns
value and error as Go does (`0` with a syntax error, `maxVal` with a range
error, stopping at the first of either). -/
def ParseUintLoop (base maxVal cutoff : Nat) : List Char → Nat → Nat × Option NumError
  | [], n => (n, none)
  | ch :: rest, n =>
    let c := ch.toNat
    if 48 ≤ c ∧ c ≤ 57 then
      let d := c - 48
      if d ≥ base then (0, some NumError.syntaxErr)
      else if n ≥ cutoff then (maxVal, some NumError.rangeErr)
      else
        let n1 := (n * base + d) % 2 ^ 64
        if n1 < n * base ∨ n1 > maxVal then (maxVal, some NumError.rangeErr)
        else ParseUintLoop base maxVal cutoff rest n1
    else if 97 ≤ lower c ∧ lower c ≤ 122 then
      let d := lower c - 97 + 10
      if d ≥ base then (0, some NumError.syntaxErr)
      else if n ≥ cutoff then (maxVal, some NumError.rangeErr)
      else
        let n1 := (n * base + d) % 2 ^ 64
        if n1 < n * base ∨ n1 > maxVal then (maxVal, some NumError.rangeErr)
        else ParseUintLoop base maxVal cutoff rest n1
    else (0, some NumError.syntaxErr)

/-- Go `strconv.ParseUint(s, base, bitSize)` for an explicit base `2..36`
(no base prefix, no underscores). -/
def ParseUint (s : List Char) (base bitSize : Nat) : Nat × Option NumError :=
  if s = [] then (0, some NumError.syntaxErr)
  else
    let bitSize := if bitSize = 0 then IntSize else bitSize
    let cutoff := maxUint64 / base + 1
    let maxVal := 2 ^ bitSize - 1
    ParseUintLoop base maxVal cutoff s 0

/-- Go `strconv.ParseInt(s, base, bitSize)` for an explicit base. -/
def ParseInt (s : List Char) (base bitSize : Nat) : Int × Option NumError :=
  match s with
  | [] => (0, some NumError.syntaxErr)
  | c :: rest =>
    let neg : Bool := c = '-'
    let s1 := if c = '+' ∨ c = '-' then rest else s
    let r := ParseUint s1 base bitSize
    if r.2 = some NumError.syntaxErr then (0, some NumError.syntaxErr)
    else
      let bitSize := if bitSize = 0 then IntSize else bitSize
      let cutoff : Nat := 2 ^ (bitSize - 1)
      if neg = false ∧ r.1 ≥ cutoff then ((cutoff : Int) - 1, some NumError.rangeErr)
      else if neg = true ∧ r.1 > cutoff then (-(cutoff : Int), some NumError.rangeErr)
      else (if neg then -(r.1 : Int) else (r.1 : Int), none)

/-- Go `strconv.Atoi(s)`: `ParseInt(s, 10, 0)` converted to `int` (the fast
path of newer Go versions for short inputs computes the same result). -/
def Atoi (s : String) : Int × Option NumError :=
  ParseInt s.data 10 0

/-- The call `com.StrTo(s).MustInt()` of `github.com/Unknwon/com`:
`v, _ := f.Int(); return v`, where `Int` is `strconv.ParseInt(s, 10, 0)`
converted to `int`.  The error is dropped. -/
def MustInt (s : String) : Int :=
  (ParseInt s.data 10 0).1

/-- Go `strings.Trim(s, cutset)`: all leading and trailing characters that
occur in `cutset` removed. -/
def Trim (s cutset : String) : String :=
  ⟨((s.data.dropWhile (fun c => decide (c ∈ cutset.data))).rdropWhile
      (fun c => decide (c ∈ cutset.data)))⟩

/-- Go `lastSlash(s)` of package `path`, started at index `n - 1`: the index
of the last `'/'` before position `n`, or `-1`. -/
def lastSlashFrom (s : List Char) : Nat → Int
  | 0 => -1
  | n + 1 => if s.getD n ' ' ≠ '/' then lastSlashFrom s n else (n : Int)

/-- Go `lastSlash(s)` of package `path`. -/
def lastSlash (s : List Char) : Int := lastSlashFrom s s.length

/-- Go `path.Base(path)`. -/
def Base (path : String) : String :=
  if path = "" then "."
  else
    let p := path.data.rdropWhile (fun c => decide (c = '/'))
    let i := lastSlash p
    let p := if i ≥ 0 then p.drop (i + 1).toNat else p
    if p = [] then "/" else ⟨p⟩

/-! ## Handlers -/

/-- `RouteApiV1CodetainerUpdateCurrentTTY` (resize). -/
def RouteApiV1CodetainerUpdateCurrentTTY (env : Env) (ctx : Context) : List Event :=
  let id := ctx.R.vars "id"
  if id = "" then [Event.jsonError "id is required"]
  else
    match env.GetDockerClient with
    | some err => [Event.GetDockerClient (some err), Event.jsonError err]
    | none =>
      let height := MustInt (ctx.R.FormValue "height")
      if height = 0 then
        [Event.GetDockerClient none, Event.jsonError "height is required"]
      else
        let width := MustInt (ctx.R.FormValue "width")
        if width = 0 then
          [Event.GetDockerClient none, Event.jsonError "width is required"]
        else
          match env.ResizeContainerTTY id height width with
          | some err =>
            [Event.GetDockerClient none,
             Event.ResizeContainerTTY id height width (some err), Event.jsonError err]
          | none =>
            [Event.GetDockerClient none,
             Event.ResizeContainerTTY id height width none,
             Event.renderJson (Payload.tty ⟨height, width⟩)]

/-- `RouteApiV1CodetainerGetCurrentTTY` (get geometry). -/
def RouteApiV1CodetainerGetCurrentTTY (env : Env) (ctx : Context) : List Event :=
  let id := ctx.R.vars "id"
  if id = "" then [Event.jsonError "id is required"]
  else
    match env.GetDockerClient with
    | some err => [Event.GetDockerClient (some err), Event.jsonError err]
    | none =>
      let r1 := env.execInContainer id ["tput", "cols"]
      let col := Trim r1.out "\n"
      match r1.err with
      | some err =>
        [Event.GetDockerClient none,
         Event.execInContainer id ["tput", "cols"] r1.out r1.errOut (some err),
         Event.jsonError err]
      | none =>
        let r2 := env.execInContainer id ["tput", "lines"]
        let lines := Trim r2.out "\n"
        match r2.err with
        | some err =>
          [Event.GetDockerClient none,
           Event.execInContainer id ["tput", "cols"] r1.out r1.errOut none,
           Event.execInContainer id ["tput", "lines"] r2.out r2.errOut (some err),
           Event.jsonError err]
        | none =>
          let height := (Atoi lines).1
          let width := (Atoi col).1
          [Event.GetDockerClient none,
           Event.execInContainer id ["tput", "cols"] r1.out r1.errOut none,
           Event.execInContainer id ["tput", "lines"] r2.out r2.errOut none,
           Event.renderJson (Payload.tty ⟨height, width⟩)]

/-- `RouteApiV1CodetainerStop`. -/
def RouteApiV1CodetainerStop (env : Env) (ctx : Context) : List Event :=
  if ctx.R.Method ≠ "POST" then [Event.jsonError "POST only"]
  else
    let id := ctx.R.vars "id"
    match env.GetDatabase with
    | some err => [Event.GetDatabase (some err), Event.jsonError err]
    | none =>
      match env.LookupByNameOrId id with
      | Sum.inl err =>
        [Event.GetDatabase none, Event.LookupByNameOrId id (Sum.inl err), Event.jsonError err]
      | Sum.inr codetainer =>
        match env.Stop codetainer with
        | (some err, _) =>
          [Event.GetDatabase none, Event.LookupByNameOrId id (Sum.inr codetainer),
           Event.Stop codetainer (some err), Event.jsonError err]
        | (none, codetainer1) =>
          [Event.GetDatabase none, Event.LookupByNameOrId id (Sum.inr codetainer),
           Event.Stop codetainer none, Event.renderJson (Payload.codetainer codetainer1)]

/-- `RouteApiV1CodetainerFileList` (list files). -/
def RouteApiV1CodetainerFileList (env : Env) (ctx : Context) : List Event :=
  let id := ctx.R.vars "id"
  if id = "" then [Event.jsonError "id is required"]
  else
    let path := ctx.R.FormValue "path"
    if path = "" then [Event.jsonError "path is required"]
    else
      match env.GetDockerClient with
      | some err => [Event.GetDockerClient (some err), Event.jsonError err]
      | none =>
        let opts : CreateExecOptions :=
          { AttachStderr := true, AttachStdin := false, AttachStdout := true, Tty := false,
            Cmd := ["/codetainer/utils/files", "--path", path], Container := id }
        match env.CreateExec opts with
        | Sum.inl err =>
          [Event.GetDockerClient none, Event.CreateExec opts (Sum.inl err), Event.jsonError err]
        | Sum.inr execId =>
          let r := env.StartExec execId
          match r.err with
          | some err =>
            [Event.GetDockerClient none, Event.CreateExec opts (Sum.inr execId),
             Event.StartExec execId r.out r.errOut (some err), Event.jsonError err]
          | none =>
            let errString := r.errOut
            if errString ≠ "" then
              [Event.GetDockerClient none, Event.CreateExec opts (Sum.inr execId),
               Event.StartExec execId r.out r.errOut none, Event.jsonError errString]
            else
              match env.makeShortFiles r.out with
              | Sum.inl err =>
                [Event.GetDockerClient none, Event.CreateExec opts (Sum.inr execId),
                 Event.StartExec execId r.out r.errOut none,
                 Event.makeShortFiles r.out (Sum.inl err), Event.jsonError err]
              | Sum.inr files =>
                [Event.GetDockerClient none, Event.CreateExec opts (Sum.inr execId),
                 Event.StartExec execId r.out r.errOut none,
                 Event.makeShortFiles r.out (Sum.inr files),
                 Event.renderJson (Payload.files files)]

/-- `RouteApiV1CodetainerStart`. -/
def RouteApiV1CodetainerStart (env : Env) (ctx : Context) : List Event :=
  if ctx.R.Method ≠ "POST" then [Event.jsonError "POST only"]
  else
    let id := ctx.R.vars "id"
    match env.GetDatabase with
    | some err => [Event.GetDatabase (some err), Event.jsonError err]
    | none =>
      match env.LookupByNameOrId id with
      | Sum.inl err =>
        [Event.GetDatabase none, Event.LookupByNameOrId id (Sum.inl err), Event.jsonError err]
      | Sum.inr codetainer =>
        match env.Start codetainer with
        | (some err, _) =>
          [Event.GetDatabase none, Event.LookupByNameOrId id (Sum.inr codetainer),
           Event.Start codetainer (some err), Event.jsonError err]
        | (none, codetainer1) =>
          [Event.GetDatabase none, Event.LookupByNameOrId id (Sum.inr codetainer),
           Event.Start codetainer none, Event.renderJson (Payload.codetainer codetainer1)]

/-- `RouteApiV1CodetainerFileUpload` (upload file). -/
def RouteApiV1CodetainerFileUpload (env : Env) (ctx : Context) : List Event :=
  match env.GetDatabase with
  | some err => [Event.GetDatabase (some err), Event.jsonError err]
  | none =>
    let id := ctx.R.vars "id"
    match env.LookupByNameOrId id with
    | Sum.inl err =>
      [Event.GetDatabase none, Event.LookupByNameOrId id (Sum.inl err), Event.jsonError err]
    | Sum.inr codetainer =>
      let dstPath := ctx.R.FormValue "dst_path"
      if dstPath = "" then
        [Event.GetDatabase none, Event.LookupByNameOrId id (Sum.inr codetainer),
         Event.jsonError "Destination folder dst_path is required"]
      else
        match ctx.R.FormFile with
        | Sum.inl err =>
          [Event.GetDatabase none, Event.LookupByNameOrId id (Sum.inr codetainer),
           Event.jsonError err]
        | Sum.inr upload =>
          let filename := Base upload.Filename
          match env.UploadFile codetainer upload.data filename dstPath with
          | some err =>
            [Event.GetDatabase none, Event.LookupByNameOrId id (Sum.inr codetainer),
             Event.UploadFile codetainer upload.data filename dstPath (some err),
             Event.jsonError err]
          | none =>
            [Event.GetDatabase none, Event.LookupByNameOrId id (Sum.inr codetainer),
             Event.UploadFile codetainer upload.data filename dstPath none,
             Event.renderJson Payload.success]

/-- `RouteApiV1CodetainerAttach`.  `ContainerConnection.Start` is not in the
sources and is taken as the parameter `connStart`: it acts on a state `σ` of
the world outside the handler and gives its error result. -/
def RouteApiV1CodetainerAttach {σ : Type}
    (connStart : ContainerConnection → σ → Option GoError × σ)
    (env : Env) (ctx : Context) (s : σ) : List Event × σ :=
  let id := ctx.R.vars "id"
  if id = "" then ([Event.jsonError "ID of container must be provided"], s)
  else
    match ctx.WS with
    | none =>
      ([Event.jsonError ("No websocket connection for web client: " ++ ctx.R.URL)], s)
    | some ws =>
      match env.GetDatabase with
      | some err => ([Event.GetDatabase (some err), Event.jsonError err], s)
      | none =>
        match env.LookupByNameOrId id with
        | Sum.inl err =>
          ([Event.GetDatabase none, Event.LookupByNameOrId id (Sum.inl err),
            Event.jsonError err], s)
        | Sum.inr codetainer =>
          let connection : ContainerConnection := { id := codetainer.Id, web := some ws }
          match connStart connection s with
          | (some err, s1) =>
            ([Event.GetDatabase none, Event.LookupByNameOrId id (Sum.inr codetainer),
              Event.ConnectionStart connection (some err), Event.jsonError err], s1)
          | (none, s1) =>
            ([Event.GetDatabase none, Event.LookupByNameOrId id (Sum.inr codetainer),
              Event.ConnectionStart connection none, Event.renderJson Payload.success], s1)

/-! ## Vocabulary of the properties -/

/-- The effect is a call of the runtime resize operation. -/
def Event.isResize : Event → Bool
  | Event.ResizeContainerTTY _ _ _ _ => true
  | _ => false

/-- The effect is a run of `makeShortFiles`. -/
def Event.isMakeShortFiles : Event → Bool
  | Event.makeShortFiles _ _ => true
  | _ => false

/-- The effect is a call of `UploadFile`. -/
def Event.isUploadFile : Event → Bool
  | Event.UploadFile _ _ _ _ _ => true
  | _ => false

/-- The effect is a start of a Connection. -/
def Event.isConnectionStart : Event → Bool
  | Event.ConnectionStart _ _ => true
  | _ => false

/-- The effect is a run of a one-shot query through `execInContainer`. -/
def Event.isExec : Event → Bool
  | Event.execInContainer _ _ _ _ _ => true
  | _ => false

/-- The effect is a write of a success body. -/
def Event.isRender : Event → Bool
  | Event.renderJson _ => true
  | _ => false

/-- The effect is a write of an error body. -/
def Event.isError : Event → Bool
  | Event.jsonError _ => true
  | _ => false

/-- The writes to the response among the effects, in order. -/
def responses (tr : List Event) : List Event :=
  tr.filter (fun e => e.isRender || e.isError)

/-- The character of a decimal digit: `'0' + d`. -/
def digitChar (d : Nat) : Char := Char.ofNat (48 + d)

/-- The decimal text of a natural number: its base-10 digits, most
significant first, no leading zero (the empty text for `0` is never used:
the numbers rendered are positive). -/
def decimalText (n : Nat) : String :=
  ⟨(Nat.digits 10 n).reverse.map digitChar⟩

/-! ## Concrete collaborators and requests used in the examples -/

/-- Collaborators that all succeed: the runtime accepts every call, every
exec prints nothing, every lookup resolves to the record named by the key. -/
def okEnv : Env :=
  { GetDockerClient := none
    GetDatabase := none
    ResizeContainerTTY := fun _ _ _ => none
    execInContainer := fun _ _ => ⟨"", "", none⟩
    CreateExec := fun _ => Sum.inr "exec1"
    StartExec := fun _ => ⟨"", "", none⟩
    makeShortFiles := fun _ => Sum.inr []
    LookupByNameOrId := fun k => Sum.inr ⟨k, k, "img", "created"⟩
    Stop := fun c => (none, c)
    Start := fun c => (none, c)
    UploadFile := fun _ _ _ _ => none }

/-- A get-geometry request for container `c1`. -/
def ttyRequest : Context :=
  { R := { Method := "GET", URL := "/api/v1/codetainer/c1/tty",
           vars := fun k => if k = "id" then "c1" else "",
           FormValue := fun _ => "",
           FormFile := Sum.inl "http: no such file" },
    WS := none }

/-- Collaborators as `okEnv`, with the column query printing `cols` and the
row query printing `rows`. -/
def tputEnv (cols rows : ExecResult) : Env :=
  { okEnv with
    execInContainer := fun _ cmd => if cmd = ["tput", "cols"] then cols else rows }

/-- A list-files request for container `id` with form value `path`. -/
def fileListRequest (id path : String) : Context :=
  { R := { Method := "GET", URL := "/api/v1/codetainer/c1/file",
           vars := fun k => if k = "id" then id else "",
           FormValue := fun k => if k = "path" then path else "",
           FormFile := Sum.inl "http: no such file" },
    WS := none }

/-- Collaborators as `okEnv`, with the listing exec giving `r`. -/
def listingEnv (r : ExecResult) : Env :=
  { okEnv with StartExec := fun _ => r }

/-- A start or stop request for container `c1` with the given method. -/
def lifecycleRequest (method : String) : Context :=
  { R := { Method := method, URL := "/api/v1/codetainer/c1/start",
           vars := fun k => if k = "id" then "c1" else "",
           FormValue := fun _ => "",
           FormFile := Sum.inl "http: no such file" },
    WS := none }

/-- Collaborators as `okEnv`, with no record resolving. -/
def notFoundEnv : Env :=
  { okEnv with LookupByNameOrId := fun _ => Sum.inl "record not found" }

/-- Collaborators as `okEnv`, with the runtime refusing to start or stop. -/
def runtimeDownEnv : Env :=
  { okEnv with
    Stop := fun c => (some "cannot stop container", c)
    Start := fun c => (some "cannot start container", c) }

/-- An attach request for container `c1` from client endpoint `ws`. -/
def attachRequest (ws : WebSocket) : Context :=
  { R := { Method := "GET", URL := "/api/v1/codetainer/c1/attach",
           vars := fun k => if k = "id" then "c1" else "",
           FormValue := fun _ => "",
           FormFile := Sum.inl "http: no such file" },
    WS := some ws }

/-- An upload request for container `c1`: a file with the client-supplied
name `filename`, and the form value `dst_path`. -/
def uploadRequest (filename dstPath : String) : Context :=
  { R := { Method := "PUT", URL := "/api/v1/codetainer/c1/file",
           vars := fun k => if k = "id" then "c1" else "",
           FormValue := fun k => if k = "dst_path" then dstPath else "",
           FormFile := Sum.inr { data := "hello", Filename := filename } },
    WS := none }

/-- A resize request for container `c1` with the given form values. -/
def resizeRequest (height width : String) : Context :=
  { R := { Method := "POST", URL := "/api/v1/codetainer/c1/tty",
           vars := fun k => if k = "id" then "c1" else "",
           FormValue := fun k =>
             if k = "height" then height else if k = "width" then width else "",
           FormFile := Sum.inl "http: no such file" },
    WS := none }

/-! ## Resize -/

/-- C1, as stated, fails: a resize request for container `c1` with height
`-5` and width `80` (a negative height) is not rejected; the runtime resize
operation is invoked with `(-5, 80)` and a TTY of height `-5` is rendered. -/
theorem resize_negative_height_reaches_runtime :
    (resizeRequest "-5" "80").R.vars "id" ≠ "" ∧
    MustInt ((resizeRequest "-5" "80").R.FormValue "height") = -5 ∧
    RouteApiV1CodetainerUpdateCurrentTTY okEnv (resizeRequest "-5" "80") =
      [Event.GetDockerClient none, Event.ResizeContainerTTY "c1" (-5) 80 none,
       Event.renderJson (Payload.tty ⟨-5, 80⟩)] := by
  decide

/-- C1, amended: for every resize request with a non-empty id:
(1) if the height or the width form value converts to zero under `MustInt`,
the runtime resize operation is never invoked and the handler writes exactly
one error; when the Docker client was obtained that error is "height is
required" (height converts to zero) or else "width is required";
(2) if both convert to non-zero values, negative ones included, and the
Docker client was obtained, the runtime resize operation is invoked, once,
with exactly those two values. -/
theorem resize_zero_rejected_before_runtime (env : Env) (ctx : Context)
    (hid : ctx.R.vars "id" ≠ "") :
    ((MustInt (ctx.R.FormValue "height") = 0 ∨ MustInt (ctx.R.FormValue "width") = 0) →
      (∀ e ∈ RouteApiV1CodetainerUpdateCurrentTTY env ctx, e.isResize = false) ∧
      (∃ msg,
        responses (RouteApiV1CodetainerUpdateCurrentTTY env ctx) = [Event.jsonError msg]) ∧
      (env.GetDockerClient = none →
        responses (RouteApiV1CodetainerUpdateCurrentTTY env ctx) =
          [Event.jsonError (if MustInt (ctx.R.FormValue "height") = 0
            then "height is required" else "width is required")])) ∧
    (MustInt (ctx.R.FormValue "height") ≠ 0 → MustInt (ctx.R.FormValue "width") ≠ 0 →
      env.GetDockerClient = none →
      (RouteApiV1CodetainerUpdateCurrentTTY env ctx).filter Event.isResize =
        [Event.ResizeContainerTTY (ctx.R.vars "id")
          (MustInt (ctx.R.FormValue "height")) (MustInt (ctx.R.FormValue "width"))
          (env.ResizeContainerTTY (ctx.R.vars "id")
            (MustInt (ctx.R.FormValue "height")) (MustInt (ctx.R.FormValue "width")))]) := by
  unfold RouteApiV1CodetainerUpdateCurrentTTY
  simp only [hid, if_false]
  constructor
  · intro hz
    cases hc : env.GetDockerClient with
    | some err => simp [responses, Event.isResize, Event.isRender, Event.isError]
    | none =>
      by_cases hh : MustInt (ctx.R.FormValue "height") = 0
      · simp [hh, responses, Event.isResize, Event.isRender, Event.isError]
      · have hw : MustInt (ctx.R.FormValue "width") = 0 := hz.resolve_left hh
        simp [hh, hw, responses, Event.isResize, Event.isRender, Event.isError]
  · intro hh hw hc
    simp only [hc, hh, hw, if_false]
    cases hr : env.ResizeContainerTTY (ctx.R.vars "id")
        (MustInt (ctx.R.FormValue "height")) (MustInt (ctx.R.FormValue "width")) <;>
      simp [Event.isResize]

/-- Witness of C1 amended: height `0` with width `80` is rejected; height `-5`
with width `0` is rejected; height `-5` with width `80` reaches the runtime. -/
theorem resize_zero_rejected_before_runtime_witness :
    ((∀ e ∈ RouteApiV1CodetainerUpdateCurrentTTY okEnv (resizeRequest "0" "80"),
        e.isResize = false) ∧
      responses (RouteApiV1CodetainerUpdateCurrentTTY okEnv (resizeRequest "0" "80")) =
        [Event.jsonError "height is required"]) ∧
    responses (RouteApiV1CodetainerUpdateCurrentTTY okEnv (resizeRequest "-5" "0")) =
      [Event.jsonError "width is required"] ∧
    (RouteApiV1CodetainerUpdateCurrentTTY okEnv (resizeRequest "-5" "80")).filter
        Event.isResize =
      [Event.ResizeContainerTTY "c1" (-5) 80 none] := by
  have h0 := (resize_zero_rejected_before_runtime okEnv (resizeRequest "0" "80")
    (by decide)).1 (Or.inl (by decide))
  have h1 := (resize_zero_rejected_before_runtime okEnv (resizeRequest "-5" "0")
    (by decide)).1 (Or.inr (by decide))
  have h2 := (resize_zero_rejected_before_runtime okEnv (resizeRequest "-5" "80")
    (by decide)).2 (by decide) (by decide) rfl
  exact ⟨⟨h0.1, by simpa using h0.2.2 rfl⟩, by simpa using h1.2.2 rfl, h2⟩

/-! ## Parsing decimal text -/

theorem digitChar_toNat (d : Nat) (h : d < 10) : (digitChar d).toNat = 48 + d := by
  interval_cases d <;> rfl

theorem le_foldl_decimal (ds : List Nat) (a : Nat) :
    a ≤ ds.foldl (fun a d => a * 10 + d) a := by
  induction ds generalizing a with
  | nil => simp
  | cons d ds ih =>
    simp only [List.foldl_cons]
    exact le_trans (by omega) (ih (a * 10 + d))

theorem ParseUintLoop_digits (ds : List Nat) (hds : ∀ d ∈ ds, d < 10) (n : Nat)
    (hV : ds.foldl (fun a d => a * 10 + d) n < 2 ^ 63) :
    ParseUintLoop 10 (2 ^ 64 - 1) (maxUint64 / 10 + 1) (ds.map digitChar) n =
      (ds.foldl (fun a d => a * 10 + d) n, none) := by
  induction ds generalizing n with
  | nil => simp [ParseUintLoop]
  | cons d ds ih =>
    have hd : d < 10 := hds d (List.mem_cons_self _ _)
    have hds1 : ∀ x ∈ ds, x < 10 := fun x hx => hds x (List.mem_cons_of_mem _ hx)
    simp only [List.foldl_cons] at hV
    have hle := le_foldl_decimal ds (n * 10 + d)
    have hn1 : n * 10 + d < 2 ^ 63 := lt_of_le_of_lt hle hV
    have hmod : (n * 10 + d) % 2 ^ 64 = n * 10 + d := Nat.mod_eq_of_lt (by omega)
    simp only [List.map_cons, List.foldl_cons, ParseUintLoop, digitChar_toNat d hd, maxUint64,
      hmod]
    rw [if_pos (by omega), if_neg (by omega), if_neg (by omega), if_neg (by omega)]
    have hmod1 : (n * 10 + d) % 18446744073709551616 = n * 10 + d := by omega
    have := ih hds1 (n * 10 + d) hV
    simpa [maxUint64, hmod1] using this

theorem foldl_decimal_append (l : List Nat) (d a : Nat) :
    (l ++ [d]).foldl (fun a d => a * 10 + d) a = l.foldl (fun a d => a * 10 + d) a * 10 + d := by
  simp [List.foldl_append]

theorem foldl_digits_reverse (w : Nat) :
    (Nat.digits 10 w).reverse.foldl (fun a d => a * 10 + d) 0 = w := by
  induction w using Nat.strong_induction_on with
  | _ w ih =>
    rcases Nat.eq_zero_or_pos w with h0 | hpos
    · subst h0; simp
    · rw [Nat.digits_def' (by norm_num) hpos, List.reverse_cons, foldl_decimal_append,
        ih (w / 10) (Nat.div_lt_self hpos (by norm_num))]
      omega

theorem digitChar_ne_newline (d : Nat) (h : d < 10) : digitChar d ≠ '\n' := by
  interval_cases d <;> decide

theorem digitChar_ne_sign (d : Nat) (h : d < 10) : digitChar d ≠ '+' ∧ digitChar d ≠ '-' := by
  interval_cases d <;> decide

theorem digits_reverse_ne_nil (w : Nat) (hw : 0 < w) : (Nat.digits 10 w).reverse ≠ [] := by
  simp [Nat.digits_ne_nil_iff_ne_zero]; omega

theorem ParseInt_digits (ds : List Nat) (hne : ds ≠ []) (hds : ∀ d ∈ ds, d < 10)
    (hV : ds.foldl (fun a d => a * 10 + d) 0 < 2 ^ 63) :
    ParseInt (ds.map digitChar) 10 0 =
      (((ds.foldl (fun a d => a * 10 + d) 0 : Nat) : Int), none) := by
  have hloop := ParseUintLoop_digits ds hds 0 hV
  cases ds with
  | nil => exact absurd rfl hne
  | cons d ds =>
    have hd : d < 10 := hds d (List.mem_cons_self _ _)
    have hs := digitChar_ne_sign d hd
    have hU : ParseUint (digitChar d :: ds.map digitChar) 10 0 =
        ((d :: ds).foldl (fun a d => a * 10 + d) 0, none) := by
      simpa [ParseUint, IntSize] using hloop
    simp only [List.map_cons, ParseInt, hs.1, hs.2, or_self, if_false, hU]
    have hV2 : List.foldl (fun a d => a * 10 + d) d ds < 2 ^ (IntSize - 1) := by
      simpa [IntSize] using hV
    simp [hV2]

theorem Atoi_decimalText (w : Nat) (hw : 0 < w) (hlt : w < 2 ^ 63) :
    Atoi (decimalText w) = ((w : Int), none) := by
  have h := ParseInt_digits (Nat.digits 10 w).reverse (digits_reverse_ne_nil w hw)
    (fun d hd => Nat.digits_lt_base (by norm_num) (List.mem_reverse.mp hd))
    (by rw [foldl_digits_reverse]; exact hlt)
  rw [foldl_digits_reverse] at h
  simpa [Atoi, decimalText] using h

theorem Trim_decimalText_newline (w : Nat) (hw : 0 < w) :
    Trim (decimalText w ++ "\n") "\n" = decimalText w := by
  have hne := digits_reverse_ne_nil w hw
  have hall : ∀ c ∈ (Nat.digits 10 w).reverse.map digitChar, c ≠ '\n' := by
    intro c hc
    obtain ⟨d, hd, rfl⟩ := List.mem_map.mp hc
    exact digitChar_ne_newline d (Nat.digits_lt_base (by norm_num) (List.mem_reverse.mp hd))
  generalize hl : (Nat.digits 10 w).reverse.map digitChar = l at hall
  have hlne : l ≠ [] := by rw [← hl]; simpa using hne
  have hdata : (decimalText w ++ "\n").data = l ++ ['\n'] := by
    simp [decimalText, hl]
  have hd : decimalText w = ⟨l⟩ := by simp [decimalText, hl]
  unfold Trim
  rw [hdata, hd]
  congr 1
  have h1 : (l ++ ['\n']).dropWhile (fun c => decide (c ∈ "\n".data)) = l ++ ['\n'] := by
    cases l with
    | nil => exact absurd rfl hlne
    | cons a l =>
      have := hall a (List.mem_cons_self _ _)
      simp [List.dropWhile, this]
  rw [h1, List.rdropWhile_concat_pos _ _ _ (by simp)]
  rw [List.rdropWhile_eq_self_iff]
  intro hl2
  have := hall _ (List.getLast_mem hl2)
  simpa using this

/-! ## Get geometry -/

theorem decimalText_80 : decimalText 80 = "80" := by
  simp [decimalText, digitChar]

theorem decimalText_24 : decimalText 24 = "24" := by
  simp [decimalText, digitChar]

/-- C2: for all positive `w` and `h` (values of Go `int`, so below `2 ^ 63`),
if the column query ran and succeeded with stdout the decimal text of `w`
followed by a newline, and the row query ran and succeeded with stdout the
decimal text of `h` followed by a newline, the handler writes exactly one
response, the TTY with `Width = w` and `Height = h`. -/
theorem get_tty_returns_queried_geometry (env : Env) (ctx : Context) (w h : Nat)
    (id1 id2 eo1 eo2 : String)
    (hw : 0 < w) (hh : 0 < h) (hwr : w < 2 ^ 63) (hhr : h < 2 ^ 63)
    (hcol : Event.execInContainer id1 ["tput", "cols"] (decimalText w ++ "\n") eo1 none ∈
      RouteApiV1CodetainerGetCurrentTTY env ctx)
    (hrow : Event.execInContainer id2 ["tput", "lines"] (decimalText h ++ "\n") eo2 none ∈
      RouteApiV1CodetainerGetCurrentTTY env ctx) :
    responses (RouteApiV1CodetainerGetCurrentTTY env ctx) =
      [Event.renderJson (Payload.tty { Height := (h : Int), Width := (w : Int) })] := by
  unfold RouteApiV1CodetainerGetCurrentTTY at hcol hrow ⊢
  by_cases hid : ctx.R.vars "id" = ""
  · simp [hid] at hcol
  · simp only [hid, if_false] at hcol hrow ⊢
    cases hc : env.GetDockerClient with
    | some err => simp [hc] at hcol
    | none =>
      simp only [hc] at hcol hrow ⊢
      cases h1 : (env.execInContainer (ctx.R.vars "id") ["tput", "cols"]).err with
      | some err => simp [h1] at hcol
      | none =>
        simp only [h1] at hcol hrow ⊢
        cases h2 : (env.execInContainer (ctx.R.vars "id") ["tput", "lines"]).err with
        | some err => simp [h2] at hrow
        | none =>
          simp only [h2] at hcol hrow ⊢
          simp at hcol hrow
          rw [← hcol.2.1, ← hrow.2.1, Trim_decimalText_newline w hw,
            Trim_decimalText_newline h hh, Atoi_decimalText w hw hwr, Atoi_decimalText h hh hhr]
          simp [responses, Event.isRender, Event.isError]

/-- Witness of C2: the outputs `"80\n"` and `"24\n"` give width 80, height 24. -/
theorem get_tty_returns_queried_geometry_witness :
    responses (RouteApiV1CodetainerGetCurrentTTY
        (tputEnv ⟨"80\n", "", none⟩ ⟨"24\n", "", none⟩) ttyRequest) =
      [Event.renderJson (Payload.tty { Height := 24, Width := 80 })] :=
  get_tty_returns_queried_geometry (tputEnv ⟨"80\n", "", none⟩ ⟨"24\n", "", none⟩) ttyRequest
    80 24 "c1" "c1" "" "" (by decide) (by decide) (by norm_num) (by norm_num)
    (by rw [decimalText_80]; decide) (by rw [decimalText_24]; decide)

/-- C3: whenever a query of the handler returned an error, the handler writes
exactly one response, the error of that query, and renders no TTY; a failed
column query is the only query run (no row query follows it).  At most one
failing query can occur in a run, so the error is that of the first one. -/
theorem get_tty_query_error_propagated (env : Env) (ctx : Context)
    (id : String) (cmd : List String) (out errOut err : String)
    (hq : Event.execInContainer id cmd out errOut (some err) ∈
      RouteApiV1CodetainerGetCurrentTTY env ctx) :
    responses (RouteApiV1CodetainerGetCurrentTTY env ctx) = [Event.jsonError err] ∧
    (∀ e ∈ RouteApiV1CodetainerGetCurrentTTY env ctx, e.isRender = false) ∧
    (cmd = ["tput", "cols"] →
      (RouteApiV1CodetainerGetCurrentTTY env ctx).filter Event.isExec =
        [Event.execInContainer id cmd out errOut (some err)]) ∧
    (cmd = ["tput", "lines"] →
      ∃ out1 errOut1,
        (RouteApiV1CodetainerGetCurrentTTY env ctx).filter Event.isExec =
          [Event.execInContainer id ["tput", "cols"] out1 errOut1 none,
           Event.execInContainer id cmd out errOut (some err)]) := by
  unfold RouteApiV1CodetainerGetCurrentTTY at hq ⊢
  by_cases hid : ctx.R.vars "id" = ""
  · simp [hid] at hq
  · simp only [hid, if_false] at hq ⊢
    cases hc : env.GetDockerClient with
    | some e => simp [hc] at hq
    | none =>
      simp only [hc] at hq ⊢
      cases h1 : (env.execInContainer (ctx.R.vars "id") ["tput", "cols"]).err with
      | some e =>
        simp [h1] at hq
        obtain ⟨rfl, rfl, rfl, rfl, rfl⟩ := hq
        simp [responses, Event.isRender, Event.isError, Event.isExec]
      | none =>
        simp only [h1] at hq ⊢
        cases h2 : (env.execInContainer (ctx.R.vars "id") ["tput", "lines"]).err with
        | some e =>
          simp [h2] at hq
          obtain ⟨rfl, rfl, rfl, rfl, rfl⟩ := hq
          simp [responses, Event.isRender, Event.isError, Event.isExec]
        | none => simp [h2] at hq

/-- Witness of C3: the column query fails with "no such container". -/
theorem get_tty_query_error_propagated_witness :
    responses (RouteApiV1CodetainerGetCurrentTTY
        (tputEnv ⟨"", "", some "no such container"⟩ ⟨"24\n", "", none⟩) ttyRequest) =
      [Event.jsonError "no such container"] ∧
    (RouteApiV1CodetainerGetCurrentTTY
        (tputEnv ⟨"", "", some "no such container"⟩ ⟨"24\n", "", none⟩) ttyRequest).filter
        Event.isExec =
      [Event.execInContainer "c1" ["tput", "cols"] "" "" (some "no such container")] :=
  have h := get_tty_query_error_propagated
    (tputEnv ⟨"", "", some "no such container"⟩ ⟨"24\n", "", none⟩) ttyRequest
    "c1" ["tput", "cols"] "" "" "no such container" (by decide)
  ⟨h.1, h.2.2.1 rfl⟩

theorem ParseInt_syntaxErr_zero (s : List Char) (base bitSize : Nat)
    (h : (ParseInt s base bitSize).2 = some NumError.syntaxErr) :
    (ParseInt s base bitSize).1 = 0 := by
  cases s with
  | nil => rfl
  | cons c rest =>
    simp only [ParseInt] at h ⊢
    generalize ParseUint (if c = '+' ∨ c = '-' then rest else c :: rest) base bitSize = r at h ⊢
    by_cases hr : r.2 = some NumError.syntaxErr
    · simp [hr]
    · rw [if_neg hr] at h
      split_ifs at h <;> simp at h

/-- C4, as stated, fails: with both queries succeeding on empty stdout the
handler renders the TTY `{Height: 0, Width: 0}` as a success response; the
parse failures of `strconv.Atoi` are dropped. -/
theorem get_tty_renders_zero_on_empty_output :
    RouteApiV1CodetainerGetCurrentTTY (tputEnv ⟨"", "", none⟩ ⟨"", "", none⟩) ttyRequest =
      [Event.GetDockerClient none,
       Event.execInContainer "c1" ["tput", "cols"] "" "" none,
       Event.execInContainer "c1" ["tput", "lines"] "" "" none,
       Event.renderJson (Payload.tty { Height := 0, Width := 0 })] ∧
    (Atoi (Trim "" "\n")).2 = some NumError.syntaxErr := by
  decide

/-- C4, amended: for every Get geometry request with a non-empty id, the
Docker client obtained and both queries returning no error, the handler
writes exactly one response, the success TTY whose height is the value
`strconv.Atoi` gives for the stdout of the row query with its leading and
trailing newlines trimmed and whose width is the same for the column query,
whatever error `Atoi` reports; a field is 0 whenever `Atoi` reports a syntax
error on its text.  And in every run, a TTY that is rendered has these two
values. -/
theorem get_tty_rendered_is_atoi_of_output (env : Env) (ctx : Context) :
    (ctx.R.vars "id" ≠ "" → env.GetDockerClient = none →
      (env.execInContainer (ctx.R.vars "id") ["tput", "cols"]).err = none →
      (env.execInContainer (ctx.R.vars "id") ["tput", "lines"]).err = none →
      responses (RouteApiV1CodetainerGetCurrentTTY env ctx) =
        [Event.renderJson (Payload.tty
          { Height :=
              (Atoi (Trim (env.execInContainer (ctx.R.vars "id") ["tput", "lines"]).out
                "\n")).1,
            Width :=
              (Atoi (Trim (env.execInContainer (ctx.R.vars "id") ["tput", "cols"]).out
                "\n")).1 })]) ∧
    (∀ t, Event.renderJson (Payload.tty t) ∈ RouteApiV1CodetainerGetCurrentTTY env ctx →
      t.Height =
        (Atoi (Trim (env.execInContainer (ctx.R.vars "id") ["tput", "lines"]).out "\n")).1 ∧
      t.Width =
        (Atoi (Trim (env.execInContainer (ctx.R.vars "id") ["tput", "cols"]).out "\n")).1) ∧
    ((Atoi (Trim (env.execInContainer (ctx.R.vars "id") ["tput", "lines"]).out "\n")).2 =
        some NumError.syntaxErr →
      (Atoi (Trim (env.execInContainer (ctx.R.vars "id") ["tput", "lines"]).out "\n")).1 = 0) ∧
    ((Atoi (Trim (env.execInContainer (ctx.R.vars "id") ["tput", "cols"]).out "\n")).2 =
        some NumError.syntaxErr →
      (Atoi (Trim (env.execInContainer (ctx.R.vars "id") ["tput", "cols"]).out "\n")).1 = 0) := by
  refine ⟨fun hid hc h1 h2 => ?_, fun t hr => ?_,
    fun h => ParseInt_syntaxErr_zero _ _ _ h, fun h => ParseInt_syntaxErr_zero _ _ _ h⟩
  · unfold RouteApiV1CodetainerGetCurrentTTY
    simp [hid, hc, h1, h2, responses, Event.isRender, Event.isError]
  · unfold RouteApiV1CodetainerGetCurrentTTY at hr
    by_cases hid : ctx.R.vars "id" = ""
    · simp [hid] at hr
    · simp only [hid, if_false] at hr
      cases hc : env.GetDockerClient with
      | some e => simp [hc] at hr
      | none =>
        simp only [hc] at hr
        cases h1 : (env.execInContainer (ctx.R.vars "id") ["tput", "cols"]).err with
        | some e => simp [h1] at hr
        | none =>
          simp only [h1] at hr
          cases h2 : (env.execInContainer (ctx.R.vars "id") ["tput", "lines"]).err with
          | some e => simp [h2] at hr
          | none =>
            simp [h2] at hr
            subst hr
            exact ⟨rfl, rfl⟩

/-- Witness of C4 amended: stdout `"abc\n"` for rows and `"80\n"` for columns
is answered with the success TTY of height 0 and width 80. -/
theorem get_tty_rendered_is_atoi_of_output_witness :
    responses (RouteApiV1CodetainerGetCurrentTTY
        (tputEnv ⟨"80\n", "", none⟩ ⟨"abc\n", "", none⟩) ttyRequest) =
      [Event.renderJson (Payload.tty { Height := 0, Width := 80 })] ∧
    (Atoi (Trim "abc\n" "\n")).2 = some NumError.syntaxErr := by
  have h := (get_tty_rendered_is_atoi_of_output
    (tputEnv ⟨"80\n", "", none⟩ ⟨"abc\n", "", none⟩) ttyRequest).1
    (by decide) rfl rfl rfl
  exact ⟨h.trans (by decide), by decide⟩

/-! ## `path.Base` -/

theorem lastSlashFrom_spec (s : List Char) (n : Nat) :
    -1 ≤ lastSlashFrom s n ∧ lastSlashFrom s n < n ∧
    (0 ≤ lastSlashFrom s n → s.getD (lastSlashFrom s n).toNat ' ' = '/') ∧
    (∀ k : Nat, lastSlashFrom s n < k → k < n → s.getD k ' ' ≠ '/') := by
  induction n with
  | zero => simp [lastSlashFrom]
  | succ n ih =>
    unfold lastSlashFrom
    by_cases h : s.getD n ' ' ≠ '/'
    · rw [if_pos h]
      obtain ⟨h1, h2, h3, h4⟩ := ih
      refine ⟨h1, by omega, h3, fun k hk hkn => ?_⟩
      by_cases hkn1 : k = n
      · subst hkn1; exact h
      · exact h4 k hk (by omega)
    · rw [if_neg h]
      push_neg at h
      refine ⟨by omega, by push_cast; omega, fun _ => by simpa using h, fun k hk hkn => ?_⟩
      omega

theorem no_slash_after_lastSlash (p : List Char) :
    ∀ c ∈ (if lastSlash p ≥ 0 then p.drop (lastSlash p + 1).toNat else p), c ≠ '/' := by
  obtain ⟨h1, h2, _, h4⟩ := lastSlashFrom_spec p p.length
  intro c hc
  by_cases hi : lastSlash p ≥ 0
  · rw [if_pos hi] at hc
    obtain ⟨j, hj, rfl⟩ := List.mem_iff_getElem.mp hc
    rw [List.length_drop] at hj
    rw [List.getElem_drop]
    have hlt : (lastSlash p + 1).toNat + j < p.length := by omega
    have := h4 ((lastSlash p + 1).toNat + j) (by unfold lastSlash at hi ⊢; omega) hlt
    rwa [List.getD_eq_getElem _ _ hlt] at this
  · rw [if_neg hi] at hc
    obtain ⟨j, hj, rfl⟩ := List.mem_iff_getElem.mp hc
    have := h4 j (by unfold lastSlash at hi; omega) hj
    rwa [List.getD_eq_getElem _ _ hj] at this

theorem slash_or_mk_ne_empty (p : List Char) :
    (if p = [] then "/" else (⟨p⟩ : String)) ≠ "" := by
  cases p with
  | nil => decide
  | cons a l =>
    intro h
    have := congrArg String.data h
    simp at this

theorem Base_ne_empty (path : String) : Base path ≠ "" := by
  unfold Base
  by_cases h1 : path = ""
  · rw [if_pos h1]; decide
  · rw [if_neg h1]
    exact slash_or_mk_ne_empty _

theorem rdropWhile_slash_eq_nil (l : List Char)
    (h : l.rdropWhile (fun c => decide (c = '/')) = []) : ∀ c ∈ l, c = '/' := by
  induction l using List.reverseRecOn with
  | nil => simp
  | append_singleton l a ih =>
    by_cases ha : a = '/'
    · rw [List.rdropWhile_concat_pos _ _ _ (by simpa using ha)] at h
      intro c hc
      rcases List.mem_append.mp hc with hc | hc
      · exact ih h c hc
      · simpa [ha] using hc
    · rw [List.rdropWhile_concat_neg _ _ _ (by simpa using ha)] at h
      simp at h

theorem Base_slash (path : String) (h : '/' ∈ (Base path).data) :
    Base path = "/" ∧ path ≠ "" ∧ ∀ c ∈ path.data, c = '/' := by
  unfold Base at h ⊢
  by_cases h1 : path = ""
  · rw [if_pos h1] at h
    exact absurd h (by decide)
  · rw [if_neg h1] at h ⊢
    simp only at h ⊢
    by_cases h2 : (if lastSlash (path.data.rdropWhile (fun c => decide (c = '/'))) ≥ 0
        then (path.data.rdropWhile (fun c => decide (c = '/'))).drop
          (lastSlash (path.data.rdropWhile (fun c => decide (c = '/'))) + 1).toNat
        else path.data.rdropWhile (fun c => decide (c = '/'))) = []
    · rw [if_pos h2]
      refine ⟨rfl, h1, ?_⟩
      apply rdropWhile_slash_eq_nil
      by_contra hne
      obtain ⟨_, hlt, h3, _⟩ := lastSlashFrom_spec
        (path.data.rdropWhile (fun c => decide (c = '/')))
        (path.data.rdropWhile (fun c => decide (c = '/'))).length
      have hlast := List.rdropWhile_last_not (fun c => decide (c = '/')) path.data hne
      by_cases hi : lastSlash (path.data.rdropWhile (fun c => decide (c = '/'))) ≥ 0
      · rw [if_pos hi] at h2
        have hlen := congrArg List.length h2
        rw [List.length_drop, List.length_nil] at hlen
        have hpos : 0 < (path.data.rdropWhile (fun c => decide (c = '/'))).length :=
          List.length_pos.mpr hne
        have hidx : (lastSlash (path.data.rdropWhile (fun c => decide (c = '/')))).toNat =
            (path.data.rdropWhile (fun c => decide (c = '/'))).length - 1 := by
          unfold lastSlash at hi hlen ⊢; omega
        have h3a := h3 hi
        unfold lastSlash at hidx
        rw [hidx, List.getD_eq_getElem _ _ (by omega)] at h3a
        rw [List.getLast_eq_getElem] at hlast
        simp [h3a] at hlast
      · rw [if_neg hi] at h2
        exact hne h2
    · rw [if_neg h2] at h
      exact absurd rfl (no_slash_after_lastSlash _ _ h)

/-! ## List files -/

/-- C5: in every run of List files whose exec was started and left a
non-empty captured stderr, the handler writes exactly one response, an error,
and `makeShortFiles` is never run on the captured stdout; when `StartExec`
itself reported success that error is exactly the captured stderr text. -/
theorem file_list_stderr_is_failure (env : Env) (ctx : Context)
    (execId out errOut : String) (err : Option GoError)
    (hs : Event.StartExec execId out errOut err ∈ RouteApiV1CodetainerFileList env ctx)
    (hne : errOut ≠ "") :
    (∃ msg, responses (RouteApiV1CodetainerFileList env ctx) = [Event.jsonError msg]) ∧
    (∀ e ∈ RouteApiV1CodetainerFileList env ctx, e.isMakeShortFiles = false) ∧
    (err = none →
      responses (RouteApiV1CodetainerFileList env ctx) = [Event.jsonError errOut]) := by
  unfold RouteApiV1CodetainerFileList at hs ⊢
  by_cases hid : ctx.R.vars "id" = ""
  · simp [hid] at hs
  · simp only [hid, if_false] at hs ⊢
    by_cases hp : ctx.R.FormValue "path" = ""
    · simp [hp] at hs
    · simp only [hp, if_false] at hs ⊢
      cases hc : env.GetDockerClient with
      | some e => simp [hc] at hs
      | none =>
        simp only [hc] at hs ⊢
        cases hx : env.CreateExec
            { AttachStderr := true, AttachStdin := false, AttachStdout := true, Tty := false,
              Cmd := ["/codetainer/utils/files", "--path", ctx.R.FormValue "path"],
              Container := ctx.R.vars "id" } with
        | inl e => simp [hx] at hs
        | inr x =>
          simp only [hx] at hs ⊢
          cases hr : (env.StartExec x).err with
          | some e =>
            simp [hr] at hs
            obtain ⟨rfl, rfl, rfl, rfl⟩ := hs
            simp [responses, Event.isRender, Event.isError, Event.isMakeShortFiles]
          | none =>
            simp only [hr] at hs ⊢
            by_cases he : (env.StartExec x).errOut = ""
            · simp only [he, ne_eq, not_true_eq_false, if_false] at hs
              cases hm : env.makeShortFiles (env.StartExec x).out with
              | inl e =>
                simp [hm] at hs
                exact absurd hs.2.2.1 hne
              | inr fs =>
                simp [hm] at hs
                exact absurd hs.2.2.1 hne
            · simp [he] at hs ⊢
              obtain ⟨rfl, rfl, rfl, rfl⟩ := hs
              simp [responses, Event.isRender, Event.isError, Event.isMakeShortFiles]

/-- Witness of C5: the listing exec succeeds and leaves "ls: no such file"
on stderr. -/
theorem file_list_stderr_is_failure_witness :
    responses (RouteApiV1CodetainerFileList
        (listingEnv ⟨"a.txt\n", "ls: no such file", none⟩) (fileListRequest "c1" "/tmp")) =
      [Event.jsonError "ls: no such file"] ∧
    (∀ e ∈ RouteApiV1CodetainerFileList
        (listingEnv ⟨"a.txt\n", "ls: no such file", none⟩) (fileListRequest "c1" "/tmp"),
      e.isMakeShortFiles = false) :=
  have h := file_list_stderr_is_failure
    (listingEnv ⟨"a.txt\n", "ls: no such file", none⟩) (fileListRequest "c1" "/tmp")
    "exec1" "a.txt\n" "ls: no such file" none (by decide) (by decide)
  ⟨h.2.2 rfl, h.2.1⟩

/-- C6: a List files request with an empty id performs nothing but the write
of the error "id is required"; one with a non-empty id and an empty `path`
performs nothing but the write of "path is required" (no Docker client fetch,
no `CreateExec`, no `StartExec`).  With id and path both non-empty, every exec
the handler creates is on container id with the command vector
`["/codetainer/utils/files", "--path", path]`, attached to stdout and stderr
only, and it is created, right after the client fetch, whenever the Docker
client is obtained. -/
theorem file_list_validates_then_creates_exec (env : Env) (ctx : Context) :
    (ctx.R.vars "id" = "" →
      RouteApiV1CodetainerFileList env ctx = [Event.jsonError "id is required"]) ∧
    (ctx.R.vars "id" ≠ "" → ctx.R.FormValue "path" = "" →
      RouteApiV1CodetainerFileList env ctx = [Event.jsonError "path is required"]) ∧
    (ctx.R.vars "id" ≠ "" → ctx.R.FormValue "path" ≠ "" →
      (∀ opts res, Event.CreateExec opts res ∈ RouteApiV1CodetainerFileList env ctx →
        opts = { AttachStderr := true, AttachStdin := false, AttachStdout := true,
                 Tty := false,
                 Cmd := ["/codetainer/utils/files", "--path", ctx.R.FormValue "path"],
                 Container := ctx.R.vars "id" }) ∧
      (env.GetDockerClient = none →
        ∃ res, (RouteApiV1CodetainerFileList env ctx).take 2 =
          [Event.GetDockerClient none,
           Event.CreateExec
             { AttachStderr := true, AttachStdin := false, AttachStdout := true,
               Tty := false,
               Cmd := ["/codetainer/utils/files", "--path", ctx.R.FormValue "path"],
               Container := ctx.R.vars "id" } res])) := by
  refine ⟨fun hid => by simp [RouteApiV1CodetainerFileList, hid],
    fun hid hp => by simp [RouteApiV1CodetainerFileList, hid, hp], fun hid hp => ?_⟩
  unfold RouteApiV1CodetainerFileList
  simp only [hid, hp, if_false]
  cases hc : env.GetDockerClient with
  | some e => simp
  | none =>
    simp only []
    cases hx : env.CreateExec
        { AttachStderr := true, AttachStdin := false, AttachStdout := true, Tty := false,
          Cmd := ["/codetainer/utils/files", "--path", ctx.R.FormValue "path"],
          Container := ctx.R.vars "id" } with
    | inl e =>
      simp
    | inr x =>
      simp only []
      cases hr : (env.StartExec x).err with
      | some e =>
        simp
      | none =>
        simp only []
        by_cases he : (env.StartExec x).errOut = ""
        · simp only [he, ne_eq, not_true_eq_false, if_false]
          cases hm : env.makeShortFiles (env.StartExec x).out with
          | inl e =>
            simp
          | inr fs =>
            simp
        · simp [he]

/-- Witness of C6: request for container `c1` with an empty path, and with
path `/tmp`. -/
theorem file_list_validates_then_creates_exec_witness :
    RouteApiV1CodetainerFileList okEnv (fileListRequest "c1" "") =
      [Event.jsonError "path is required"] ∧
    RouteApiV1CodetainerFileList okEnv (fileListRequest "" "/tmp") =
      [Event.jsonError "id is required"] ∧
    (∃ res, (RouteApiV1CodetainerFileList okEnv (fileListRequest "c1" "/tmp")).take 2 =
      [Event.GetDockerClient none,
       Event.CreateExec
         { AttachStderr := true, AttachStdin := false, AttachStdout := true, Tty := false,
           Cmd := ["/codetainer/utils/files", "--path", "/tmp"], Container := "c1" } res]) :=
  ⟨(file_list_validates_then_creates_exec okEnv (fileListRequest "c1" "")).2.1
      (by decide) (by decide),
   (file_list_validates_then_creates_exec okEnv (fileListRequest "" "/tmp")).1 (by decide),
   ((file_list_validates_then_creates_exec okEnv (fileListRequest "c1" "/tmp")).2.2
      (by decide) (by decide)).2 rfl⟩

/-! ## Start and Stop -/

/-- C9: the whole run of Stop, and of Start alike, in every case.  A request
that is not a POST performs nothing but the write of the error "POST only"
(no storage or runtime access).  For a POST: if the database is not obtained
the run is that fetch and the write of its error; if the lookup by id or name
fails, the run is the fetch, the lookup and the write of exactly the lookup
error, with no runtime stop/start; if the record resolves, the runtime
stop/start is invoked on it, and the run ends with the write of exactly the
error it returned, or, when it returned none, with the render of the
Codetainer record as the operation left it. -/
theorem start_stop_contract (env : Env) (ctx : Context) :
    ((ctx.R.Method ≠ "POST" →
        RouteApiV1CodetainerStop env ctx = [Event.jsonError "POST only"]) ∧
      (ctx.R.Method = "POST" → ∀ err, env.GetDatabase = some err →
        RouteApiV1CodetainerStop env ctx = [Event.GetDatabase (some err), Event.jsonError err]) ∧
      (ctx.R.Method = "POST" → env.GetDatabase = none →
        ∀ err, env.LookupByNameOrId (ctx.R.vars "id") = Sum.inl err →
        RouteApiV1CodetainerStop env ctx =
          [Event.GetDatabase none,
           Event.LookupByNameOrId (ctx.R.vars "id") (Sum.inl err),
           Event.jsonError err]) ∧
      (ctx.R.Method = "POST" → env.GetDatabase = none →
        ∀ c, env.LookupByNameOrId (ctx.R.vars "id") = Sum.inr c →
        ∀ err, (env.Stop c).1 = some err →
        RouteApiV1CodetainerStop env ctx =
          [Event.GetDatabase none,
           Event.LookupByNameOrId (ctx.R.vars "id") (Sum.inr c),
           Event.Stop c (some err),
           Event.jsonError err]) ∧
      (ctx.R.Method = "POST" → env.GetDatabase = none →
        ∀ c, env.LookupByNameOrId (ctx.R.vars "id") = Sum.inr c →
        (env.Stop c).1 = none →
        RouteApiV1CodetainerStop env ctx =
          [Event.GetDatabase none,
           Event.LookupByNameOrId (ctx.R.vars "id") (Sum.inr c),
           Event.Stop c none,
           Event.renderJson (Payload.codetainer (env.Stop c).2)])) ∧
    ((ctx.R.Method ≠ "POST" →
        RouteApiV1CodetainerStart env ctx = [Event.jsonError "POST only"]) ∧
      (ctx.R.Method = "POST" → ∀ err, env.GetDatabase = some err →
        RouteApiV1CodetainerStart env ctx = [Event.GetDatabase (some err), Event.jsonError err]) ∧
      (ctx.R.Method = "POST" → env.GetDatabase = none →
        ∀ err, env.LookupByNameOrId (ctx.R.vars "id") = Sum.inl err →
        RouteApiV1CodetainerStart env ctx =
          [Event.GetDatabase none,
           Event.LookupByNameOrId (ctx.R.vars "id") (Sum.inl err),
           Event.jsonError err]) ∧
      (ctx.R.Method = "POST" → env.GetDatabase = none →
        ∀ c, env.LookupByNameOrId (ctx.R.vars "id") = Sum.inr c →
        ∀ err, (env.Start c).1 = some err →
        RouteApiV1CodetainerStart env ctx =
          [Event.GetDatabase none,
           Event.LookupByNameOrId (ctx.R.vars "id") (Sum.inr c),
           Event.Start c (some err),
           Event.jsonError err]) ∧
      (ctx.R.Method = "POST" → env.GetDatabase = none →
        ∀ c, env.LookupByNameOrId (ctx.R.vars "id") = Sum.inr c →
        (env.Start c).1 = none →
        RouteApiV1CodetainerStart env ctx =
          [Event.GetDatabase none,
           Event.LookupByNameOrId (ctx.R.vars "id") (Sum.inr c),
           Event.Start c none,
           Event.renderJson (Payload.codetainer (env.Start c).2)])) := by
  constructor
  · unfold RouteApiV1CodetainerStop
    refine ⟨fun hm => by simp [hm], fun hm err hd => by simp [hm, hd],
      fun hm hd err hl => by simp [hm, hd, hl], fun hm hd c hl err hs => ?_,
      fun hm hd c hl hs => ?_⟩
    · rcases hop : env.Stop c with ⟨r, c1⟩
      rw [hop] at hs
      simp only at hs
      subst hs
      simp [hm, hd, hl, hop]
    · rcases hop : env.Stop c with ⟨r, c1⟩
      rw [hop] at hs
      simp only at hs
      subst hs
      simp [hm, hd, hl, hop]
  · unfold RouteApiV1CodetainerStart
    refine ⟨fun hm => by simp [hm], fun hm err hd => by simp [hm, hd],
      fun hm hd err hl => by simp [hm, hd, hl], fun hm hd c hl err hs => ?_,
      fun hm hd c hl hs => ?_⟩
    · rcases hop : env.Start c with ⟨r, c1⟩
      rw [hop] at hs
      simp only at hs
      subst hs
      simp [hm, hd, hl, hop]
    · rcases hop : env.Start c with ⟨r, c1⟩
      rw [hop] at hs
      simp only at hs
      subst hs
      simp [hm, hd, hl, hop]

/-- Witness of C9: a GET request; a POST whose record does not resolve; a
POST whose runtime stop fails; a POST whose runtime start fails; a POST start
that goes through. -/
theorem start_stop_contract_witness :
    RouteApiV1CodetainerStop okEnv (lifecycleRequest "GET") = [Event.jsonError "POST only"] ∧
    RouteApiV1CodetainerStart notFoundEnv (lifecycleRequest "POST") =
      [Event.GetDatabase none,
       Event.LookupByNameOrId "c1" (Sum.inl "record not found"),
       Event.jsonError "record not found"] ∧
    RouteApiV1CodetainerStop runtimeDownEnv (lifecycleRequest "POST") =
      [Event.GetDatabase none,
       Event.LookupByNameOrId "c1" (Sum.inr ⟨"c1", "c1", "img", "created"⟩),
       Event.Stop ⟨"c1", "c1", "img", "created"⟩ (some "cannot stop container"),
       Event.jsonError "cannot stop container"] ∧
    RouteApiV1CodetainerStart runtimeDownEnv (lifecycleRequest "POST") =
      [Event.GetDatabase none,
       Event.LookupByNameOrId "c1" (Sum.inr ⟨"c1", "c1", "img", "created"⟩),
       Event.Start ⟨"c1", "c1", "img", "created"⟩ (some "cannot start container"),
       Event.jsonError "cannot start container"] ∧
    RouteApiV1CodetainerStart okEnv (lifecycleRequest "POST") =
      [Event.GetDatabase none,
       Event.LookupByNameOrId "c1" (Sum.inr ⟨"c1", "c1", "img", "created"⟩),
       Event.Start ⟨"c1", "c1", "img", "created"⟩ none,
       Event.renderJson (Payload.codetainer ⟨"c1", "c1", "img", "created"⟩)] :=
  ⟨(start_stop_contract okEnv (lifecycleRequest "GET")).1.1 (by decide),
   (start_stop_contract notFoundEnv (lifecycleRequest "POST")).2.2.2.1
      rfl rfl "record not found" rfl,
   (start_stop_contract runtimeDownEnv (lifecycleRequest "POST")).1.2.2.2.1
      rfl rfl ⟨"c1", "c1", "img", "created"⟩ rfl "cannot stop container" rfl,
   (start_stop_contract runtimeDownEnv (lifecycleRequest "POST")).2.2.2.2.1
      rfl rfl ⟨"c1", "c1", "img", "created"⟩ rfl "cannot start container" rfl,
   (start_stop_contract okEnv (lifecycleRequest "POST")).2.2.2.2.2
      rfl rfl ⟨"c1", "c1", "img", "created"⟩ rfl rfl⟩

/-! ## Attach -/

/-- C7: for every Attach request and every behaviour of `Start()`: when the
lookup of the container failed, the handler writes exactly that lookup error,
starts no Connection and leaves the world as it was; when the lookup
resolved a record, exactly one Connection is started, bound to the record's
`Id` and to the request's client endpoint, and the handler writes the success
body if and only if `Start()` returned no error (else it writes the error
`Start()` returned). -/
theorem attach_contract {σ : Type} (connStart : ContainerConnection → σ → Option GoError × σ)
    (env : Env) (ctx : Context) (s : σ) :
    (∀ id err,
      Event.LookupByNameOrId id (Sum.inl err) ∈
        (RouteApiV1CodetainerAttach connStart env ctx s).1 →
      responses (RouteApiV1CodetainerAttach connStart env ctx s).1 = [Event.jsonError err] ∧
      (∀ e ∈ (RouteApiV1CodetainerAttach connStart env ctx s).1, e.isConnectionStart = false) ∧
      (RouteApiV1CodetainerAttach connStart env ctx s).2 = s) ∧
    (∀ id c,
      Event.LookupByNameOrId id (Sum.inr c) ∈
        (RouteApiV1CodetainerAttach connStart env ctx s).1 →
      ctx.WS ≠ none ∧
      (RouteApiV1CodetainerAttach connStart env ctx s).1.filter Event.isConnectionStart =
        [Event.ConnectionStart { id := c.Id, web := ctx.WS }
          (connStart { id := c.Id, web := ctx.WS } s).1] ∧
      (RouteApiV1CodetainerAttach connStart env ctx s).2 =
        (connStart { id := c.Id, web := ctx.WS } s).2 ∧
      (responses (RouteApiV1CodetainerAttach connStart env ctx s).1 =
          [Event.renderJson Payload.success] ↔
        (connStart { id := c.Id, web := ctx.WS } s).1 = none) ∧
      (∀ err, (connStart { id := c.Id, web := ctx.WS } s).1 = some err →
        responses (RouteApiV1CodetainerAttach connStart env ctx s).1 =
          [Event.jsonError err])) := by
  unfold RouteApiV1CodetainerAttach
  by_cases hid : ctx.R.vars "id" = ""
  · simp [hid]
  · simp only [hid, if_false]
    cases hw : ctx.WS with
    | none => simp
    | some ws =>
      cases hd : env.GetDatabase with
      | some e => simp
      | none =>
        cases hl : env.LookupByNameOrId (ctx.R.vars "id") with
        | inl e =>
          simp [responses, Event.isRender, Event.isError, Event.isConnectionStart]
        | inr c =>
          rcases hs : connStart { id := c.Id, web := some ws } s with ⟨_ | e, s1⟩ <;>
            simp [hs, responses, Event.isRender, Event.isError, Event.isConnectionStart]

/-- Witness of C7: an attach whose lookup fails, and one that goes through,
with a `Start()` that always succeeds and counts the Connections started. -/
theorem attach_contract_witness :
    responses (RouteApiV1CodetainerAttach (fun _ (n : Nat) => (none, n + 1))
        notFoundEnv (attachRequest 7) 0).1 = [Event.jsonError "record not found"] ∧
    (RouteApiV1CodetainerAttach (fun _ (n : Nat) => (none, n + 1))
        okEnv (attachRequest 7) 0).1.filter Event.isConnectionStart =
      [Event.ConnectionStart { id := "c1", web := some 7 } none] :=
  ⟨((attach_contract (fun _ (n : Nat) => (none, n + 1)) notFoundEnv
      (attachRequest 7) 0).1 "c1" "record not found" (by decide)).1,
   ((attach_contract (fun _ (n : Nat) => (none, n + 1)) okEnv
      (attachRequest 7) 0).2 "c1" ⟨"c1", "c1", "img", "created"⟩ (by decide)).2.1⟩

/-! ## Upload file -/

/-- C10, as stated, fails: the client names the file `a/..` (and, in a second
request, `..`); the name handed to `UploadFile` is `..`, a directory
component supplied by the client. -/
theorem upload_hands_over_dot_dot :
    RouteApiV1CodetainerFileUpload okEnv (uploadRequest "a/.." "/home") =
      [Event.GetDatabase none,
       Event.LookupByNameOrId "c1" (Sum.inr ⟨"c1", "c1", "img", "created"⟩),
       Event.UploadFile ⟨"c1", "c1", "img", "created"⟩ "hello" ".." "/home" none,
       Event.renderJson Payload.success] ∧
    RouteApiV1CodetainerFileUpload okEnv (uploadRequest ".." "/home") =
      [Event.GetDatabase none,
       Event.LookupByNameOrId "c1" (Sum.inr ⟨"c1", "c1", "img", "created"⟩),
       Event.UploadFile ⟨"c1", "c1", "img", "created"⟩ "hello" ".." "/home" none,
       Event.renderJson Payload.success] := by
  decide

/-- C10, amended: in every run of Upload file, each call of `UploadFile` is
given as file name `path.Base` of the client-supplied multipart filename: a
non-empty name that contains a `'/'` only if it is exactly "/", which happens
only for a filename made of slashes alone; and it is given as destination
exactly the `dst_path` form value, which is non-empty.  A request with an
empty `dst_path` fails with one error and `UploadFile` is never called.  When
the database is obtained, the record resolves, `dst_path` is non-empty and
the multipart file is present, `UploadFile` is called, with that name and
destination. -/
theorem upload_hands_over_base_name (env : Env) (ctx : Context) :
    (∀ c data filename dstPath err,
      Event.UploadFile c data filename dstPath err ∈ RouteApiV1CodetainerFileUpload env ctx →
      ∃ upload, ctx.R.FormFile = Sum.inr upload ∧ data = upload.data ∧
        filename = Base upload.Filename ∧ filename ≠ "" ∧
        ('/' ∈ filename.data →
          filename = "/" ∧ upload.Filename ≠ "" ∧ ∀ ch ∈ upload.Filename.data, ch = '/') ∧
        dstPath = ctx.R.FormValue "dst_path" ∧ dstPath ≠ "") ∧
    (ctx.R.FormValue "dst_path" = "" →
      (∃ msg, responses (RouteApiV1CodetainerFileUpload env ctx) = [Event.jsonError msg]) ∧
      ∀ e ∈ RouteApiV1CodetainerFileUpload env ctx, e.isUploadFile = false) ∧
    (env.GetDatabase = none →
      ∀ c, env.LookupByNameOrId (ctx.R.vars "id") = Sum.inr c →
      ctx.R.FormValue "dst_path" ≠ "" →
      ∀ upload, ctx.R.FormFile = Sum.inr upload →
      (RouteApiV1CodetainerFileUpload env ctx).filter Event.isUploadFile =
        [Event.UploadFile c upload.data (Base upload.Filename) (ctx.R.FormValue "dst_path")
          (env.UploadFile c upload.data (Base upload.Filename)
            (ctx.R.FormValue "dst_path"))]) := by
  refine ⟨?_, ?_, fun hd c hl hp upload hf => ?_⟩
  · unfold RouteApiV1CodetainerFileUpload
    cases hd : env.GetDatabase with
    | some e => simp
    | none =>
      dsimp only
      cases hl : env.LookupByNameOrId (ctx.R.vars "id") with
      | inl e => simp
      | inr c0 =>
        by_cases hp : ctx.R.FormValue "dst_path" = ""
        · simp [hp]
        · simp only [hp, if_false]
          cases hf : ctx.R.FormFile with
          | inl e => simp
          | inr up =>
            dsimp only
            have hb := Base_ne_empty up.Filename
            have hs := Base_slash up.Filename
            cases hu : env.UploadFile c0 up.data (Base up.Filename)
                (ctx.R.FormValue "dst_path") with
            | some e =>
              simp only [List.mem_cons, List.mem_singleton, reduceCtorEq, false_or, or_false,
                Event.UploadFile.injEq, List.not_mem_nil]
              rintro c data filename dstPath err ⟨rfl, rfl, rfl, rfl, rfl⟩
              exact ⟨up, rfl, rfl, rfl, hb, hs, rfl, hp⟩
            | none =>
              simp only [List.mem_cons, List.mem_singleton, reduceCtorEq, false_or, or_false,
                Event.UploadFile.injEq, List.not_mem_nil]
              rintro c data filename dstPath err ⟨rfl, rfl, rfl, rfl, rfl⟩
              exact ⟨up, rfl, rfl, rfl, hb, hs, rfl, hp⟩
  · intro hp
    unfold RouteApiV1CodetainerFileUpload
    cases hd : env.GetDatabase with
    | some e => simp [responses, Event.isRender, Event.isError, Event.isUploadFile]
    | none =>
      dsimp only
      cases hl : env.LookupByNameOrId (ctx.R.vars "id") <;>
        simp [hp, responses, Event.isRender, Event.isError, Event.isUploadFile]
  · unfold RouteApiV1CodetainerFileUpload
    simp only [hd, hl, hp, hf, if_false]
    cases hu : env.UploadFile c upload.data (Base upload.Filename)
        (ctx.R.FormValue "dst_path") <;>
      simp [Event.isUploadFile]

/-- Witness of C10 amended: the client names the file `../../etc/passwd`; the
name handed to `UploadFile` is `passwd`. -/
theorem upload_hands_over_base_name_witness :
    (∃ upload, (uploadRequest "../../etc/passwd" "/home").R.FormFile = Sum.inr upload ∧
      "passwd" = Base upload.Filename) ∧
    (∀ e ∈ RouteApiV1CodetainerFileUpload okEnv (uploadRequest "../../etc/passwd" ""),
      e.isUploadFile = false) ∧
    (RouteApiV1CodetainerFileUpload okEnv (uploadRequest "../../etc/passwd" "/home")).filter
        Event.isUploadFile =
      [Event.UploadFile ⟨"c1", "c1", "img", "created"⟩ "hello" "passwd" "/home" none] :=
  have h := (upload_hands_over_base_name okEnv (uploadRequest "../../etc/passwd" "/home")).1
    ⟨"c1", "c1", "img", "created"⟩ "hello" "passwd" "/home" none (by decide)
  ⟨h.imp (fun _ hu => ⟨hu.1, hu.2.2.1⟩),
   ((upload_hands_over_base_name okEnv (uploadRequest "../../etc/passwd" "")).2.1 rfl).2,
   ((upload_hands_over_base_name okEnv (uploadRequest "../../etc/passwd" "/home")).2.2
      rfl ⟨"c1", "c1", "img", "created"⟩ rfl (by decide)
      { data := "hello", Filename := "../../etc/passwd" } rfl).trans (by decide)⟩

end CodetainerApi
